import Mathlib

/-!
Verification of the LLM routing core: `core/cache.py`, `core/classifier.py`,
`core/router.py`. Machine words are `Nat` reduced modulo `2 ^ 32` (or `2 ^ 64`)
where the algorithm wraps; money/latency/confidence values are `ℚ`; fallible
operations return `Except`/`Option`. External collaborators (the `diskcache`
store, the model backends) are modelled by their documented contracts: the
store is an association list from key to (value, optional expiry time), and a
backend is an oracle function that may fail.
-/

set_option maxRecDepth 4000

namespace LLMRouting

/-! ## Strings: `str.lower()` and UTF-8 encoding

Python `str.lower()` is modelled character by character with the ASCII case
map (`Char.toLower`); Python agrees with this map on ASCII text.
`str.encode(utf8)` is the standard UTF-8 encoding of the code points. -/

def pyLower (s : String) : String :=
  String.mk (s.toList.map Char.toLower)

def utf8CharBytes (c : ℕ) : List ℕ :=
  if c < 128 then [c]
  else if c < 2048 then [192 + c / 64, 128 + c % 64]
  else if c < 65536 then [224 + c / 4096, 128 + (c / 64) % 64, 128 + c % 64]
  else [240 + c / 262144, 128 + (c / 4096) % 64, 128 + (c / 64) % 64, 128 + c % 64]

def utf8Encode (s : String) : List ℕ :=
  (s.toList.map (fun ch => utf8CharBytes ch.toNat)).flatten

/-! ## MD5 (`hashlib.md5(...).hexdigest()`)

The reference MD5 algorithm (RFC 1321) over a list of byte values, with the
standard round-constant and shift tables, producing the lowercase hex digest
string exactly as `hexdigest()` does. -/

def md5K : List ℕ :=
  [3614090360, 3905402710, 606105819, 3250441966, 4118548399, 1200080426,
   2821735955, 4249261313, 1770035416, 2336552879, 4294925233, 2304563134,
   1804603682, 4254626195, 2792965006, 1236535329, 4129170786, 3225465664,
   643717713, 3921069994, 3593408605, 38016083, 3634488961, 3889429448,
   568446438, 3275163606, 4107603335, 1163531501, 2850285829, 4243563512,
   1735328473, 2368359562, 4294588738, 2272392833, 1839030562, 4259657740,
   2763975236, 1272893353, 4139469664, 3200236656, 681279174, 3936430074,
   3572445317, 76029189, 3654602809, 3873151461, 530742520, 3299628645,
   4096336452, 1126891415, 2878612391, 4237533241, 1700485571, 2399980690,
   4293915773, 2240044497, 1873313359, 4264355552, 2734768916, 1309151649,
   4149444226, 3174756917, 718787259, 3951481745]

def md5S : List ℕ :=
  [7, 12, 17, 22, 7, 12, 17, 22, 7, 12, 17, 22, 7, 12, 17, 22,
   5, 9, 14, 20, 5, 9, 14, 20, 5, 9, 14, 20, 5, 9, 14, 20,
   4, 11, 16, 23, 4, 11, 16, 23, 4, 11, 16, 23, 4, 11, 16, 23,
   6, 10, 15, 21, 6, 10, 15, 21, 6, 10, 15, 21, 6, 10, 15, 21]

def md5F (i b c d : ℕ) : ℕ :=
  if i < 16 then (b &&& c) ||| ((4294967295 ^^^ b) &&& d)
  else if i < 32 then (d &&& b) ||| ((4294967295 ^^^ d) &&& c)
  else if i < 48 then b ^^^ c ^^^ d
  else c ^^^ (b ||| (4294967295 ^^^ d))

def md5G (i : ℕ) : ℕ :=
  if i < 16 then i
  else if i < 32 then (5 * i + 1) % 16
  else if i < 48 then (3 * i + 5) % 16
  else (7 * i) % 16

def rotl32 (x s : ℕ) : ℕ :=
  ((x <<< s) ||| (x >>> (32 - s))) % 4294967296

def md5Step (M : List ℕ) (st : ℕ × ℕ × ℕ × ℕ) (i : ℕ) : ℕ × ℕ × ℕ × ℕ :=
  let a := st.1
  let b := st.2.1
  let c := st.2.2.1
  let d := st.2.2.2
  let f := (md5F i b c d + a + md5K.getD i 0 + M.getD (md5G i) 0) % 4294967296
  (d, (b + rotl32 f (md5S.getD i 0)) % 4294967296, b, c)

def md5Words (chunk : List ℕ) : List ℕ :=
  (List.range 16).map (fun j =>
    chunk.getD (4 * j) 0 + 256 * chunk.getD (4 * j + 1) 0 +
    65536 * chunk.getD (4 * j + 2) 0 + 16777216 * chunk.getD (4 * j + 3) 0)

def md5Chunk (st : ℕ × ℕ × ℕ × ℕ) (chunk : List ℕ) : ℕ × ℕ × ℕ × ℕ :=
  let M := md5Words chunk
  let r := (List.range 64).foldl (md5Step M) st
  ((st.1 + r.1) % 4294967296, (st.2.1 + r.2.1) % 4294967296,
   (st.2.2.1 + r.2.2.1) % 4294967296, (st.2.2.2 + r.2.2.2) % 4294967296)

def md5Pad (msg : List ℕ) : List ℕ :=
  let n := msg.length
  let padZeros := (119 - n % 64) % 64
  let bitLen := (8 * n) % 18446744073709551616
  msg ++ [128] ++ List.replicate padZeros 0 ++
    (List.range 8).map (fun j => (bitLen >>> (8 * j)) % 256)

def toChunksAux : ℕ → List ℕ → List (List ℕ)
  | 0, _ => []
  | _, [] => []
  | fuel + 1, l => l.take 64 :: toChunksAux fuel (l.drop 64)

def toChunks (l : List ℕ) : List (List ℕ) :=
  toChunksAux l.length l

def wordLEBytes (w : ℕ) : List ℕ :=
  [w % 256, (w / 256) % 256, (w / 65536) % 256, (w / 16777216) % 256]

def md5Bytes (msg : List ℕ) : List ℕ :=
  let r := (toChunks (md5Pad msg)).foldl md5Chunk
    (1732584193, 4023233417, 2562383102, 271733878)
  wordLEBytes r.1 ++ wordLEBytes r.2.1 ++ wordLEBytes r.2.2.1 ++ wordLEBytes r.2.2.2

def hexDigitChar (n : ℕ) : Char :=
  if n < 10 then Char.ofNat (48 + n) else Char.ofNat (87 + n)

def md5Hexdigest (msg : List ℕ) : String :=
  String.mk ((md5Bytes msg).map (fun b => [hexDigitChar (b / 16), hexDigitChar (b % 16)])).flatten

example : md5Hexdigest [] = "d41d8cd98f00b204e9800998ecf8427e" := by decide

example : md5Hexdigest (utf8Encode "hello") = "5d41402abc4b2a76b9719d911017c592" := by decide

/-! ## Association lists

Python dict operations used by the core, on association lists: `List.lookup`
is `d.get(k)`; `assocSet` is `d[k] = v` (replace or append). -/

def assocSet {α : Type} (k : String) (v : α) : List (String × α) → List (String × α)
  | [] => [(k, v)]
  | (k2, v2) :: t => if k2 = k then (k, v) :: t else (k2, v2) :: assocSet k v t

/-! ## Data model (`core/router.py`, `core/cache.py`) -/

/-- The eight fields `QueryCache.set` stores (`clean_result` in the source). -/
structure CacheEntry where
  query : String
  model_used : String
  response : String
  speed_ms : ℚ
  accuracy : ℚ
  cost : ℚ
  classification : String
  confidence : ℚ
deriving DecidableEq

/-- The `RoutingResult` dataclass: the cache-entry fields plus `from_cache`. -/
structure RoutingResult where
  query : String
  model_used : String
  response : String
  speed_ms : ℚ
  accuracy : ℚ
  cost : ℚ
  from_cache : Bool
  classification : String
  confidence : ℚ
deriving DecidableEq

/-- `RoutingResult(from_cache=b, **entry_fields)`. -/
def entryToResult (e : CacheEntry) (from_cache : Bool) : RoutingResult :=
  { query := e.query, model_used := e.model_used, response := e.response,
    speed_ms := e.speed_ms, accuracy := e.accuracy, cost := e.cost,
    from_cache := from_cache, classification := e.classification,
    confidence := e.confidence }

/-! ## Cache (`core/cache.py`)

The `diskcache.Cache` store is modelled by its documented contract as an
association list from key to (value, optional absolute expiry time); a read
at time `now` returns an entry while it is unexpired, where an absent expiry
means the entry never expires. -/

abbrev DiskCache : Type := List (String × (CacheEntry × Option ℕ))

/-- `QueryCache.__init__` keeps `ttl_seconds` and the underlying store. -/
structure QueryCache where
  ttl_seconds : ℕ
  cache : DiskCache
deriving DecidableEq

/-- `QueryCache._get_query_hash`: `hashlib.md5(query.lower().encode(utf8)).hexdigest()`. -/
def get_query_hash (query : String) : String :=
  md5Hexdigest (utf8Encode (pyLower query))

/-- `diskcache.Cache.get(key)` at time `now`. -/
def diskcache_get (c : DiskCache) (now : ℕ) (key : String) : Option CacheEntry :=
  match List.lookup key c with
  | some (v, none) => some v
  | some (v, some expireAt) => if now < expireAt then some v else none
  | none => none

/-- `cache[key] = value` (`diskcache.Cache.__setitem__`): stores with the
default `expire=None`, so no expiry time is attached to the entry. -/
def diskcache_setitem (c : DiskCache) (key : String) (v : CacheEntry) : DiskCache :=
  assocSet key (v, none) c

/-- `QueryCache.get`. -/
def cache_get (qc : QueryCache) (now : ℕ) (query : String) : Option CacheEntry :=
  diskcache_get qc.cache now (get_query_hash query)

/-- The `clean_result` dict built inside `QueryCache.set`: it copies exactly
the eight declared fields, which are exactly the fields of `CacheEntry`. -/
def clean_result (r : CacheEntry) : CacheEntry :=
  { query := r.query, model_used := r.model_used, response := r.response,
    speed_ms := r.speed_ms, accuracy := r.accuracy, cost := r.cost,
    classification := r.classification, confidence := r.confidence }

/-- `QueryCache.set`: note the store happens through `self.cache[hash] = ...`,
which does not pass `self.ttl_seconds` (or any expiry) to the store. -/
def cache_set (qc : QueryCache) (query : String) (result : CacheEntry) : QueryCache :=
  { qc with cache := diskcache_setitem qc.cache (get_query_hash query) (clean_result result) }

/-- The record `QueryCache.get_stats` returns. -/
structure CacheStatsView where
  size : ℕ
  items : ℕ
  hit_rate : ℚ
deriving DecidableEq

/-- One `get_stats` call against the underlying store, whose three calls
(`stats()`, `volume()`, `len`) may each fail with a storage error; a
deterministic oracle records the outcome of each. -/
structure DiskCacheOracle where
  statsCall : Except Unit (ℕ × ℕ)
  volumeCall : Except Unit ℕ
  lenCall : Except Unit ℕ

/-- `QueryCache.get_stats`: the try-block reads `stats()` (always a pair
`(hits, misses)`, so the tuple-shape guard in the source passes), computes
`hit_rate`, then reads `volume()` and `len`; on any failure the except-block
reads `volume()` and `len` again, unprotected. -/
def get_stats (o : DiskCacheOracle) : Except Unit CacheStatsView :=
  let attempt : Except Unit CacheStatsView := do
    let s ← o.statsCall
    let hit_rate : ℚ := if s.1 + s.2 > 0 then (s.1 : ℚ) / ((s.1 : ℚ) + (s.2 : ℚ)) else 0
    let v ← o.volumeCall
    let n ← o.lenCall
    pure ⟨v, n, hit_rate⟩
  match attempt with
  | .ok r => .ok r
  | .error _ => do
    let v ← o.volumeCall
    let n ← o.lenCall
    pure ⟨v, n, 0⟩

/-! ## Classifier (`core/classifier.py`) -/

/-- The `classification` section of the configuration. The two length
thresholds are optional keys of `query_length_thresholds`, read with
defaults 80 and 200. -/
structure ClassificationConfig where
  simple_keywords : List String
  advanced_keywords : List String
  threshold_simple : Option ℕ
  threshold_advanced : Option ℕ
deriving DecidableEq

/-- Does the needle occur at the head of the haystack? -/
def charsStartWith : List Char → List Char → Bool
  | [], _ => true
  | _ :: _, [] => false
  | a :: n, b :: h => a == b && charsStartWith n h

/-- Does the needle occur contiguously anywhere in the haystack? -/
def charsContain : List Char → List Char → Bool
  | n, [] => n.isEmpty
  | n, b :: h => charsStartWith n (b :: h) || charsContain n h

/-- Python substring test `kw in s`. -/
def kw_in (kw s : String) : Bool :=
  charsContain kw.toList s.toList

/-- `QueryClassifier._rule_based_classification`. -/
def rule_based_classification (config : ClassificationConfig) (query : String) : String × ℚ :=
  let query_lower := pyLower query
  let has_simple := config.simple_keywords.any (fun kw => kw_in kw query_lower)
  let has_advanced := config.advanced_keywords.any (fun kw => kw_in kw query_lower)
  let is_short := decide (query.length < config.threshold_simple.getD 80)
  let is_long := decide (query.length > config.threshold_advanced.getD 200)
  if has_advanced || is_long then ("advanced", if has_advanced then 0.85 else 0.70)
  else if has_simple && is_short then ("simple", if has_simple then 0.90 else 0.75)
  else ("medium", 0.80)

/-- `QueryClassifier.classify` as the Router uses it: the Router constructs
the classifier untrained and never calls `train`, so `is_trained` is `False`
and `classify` is the rule-based baseline (the trained sklearn path is an
external statistical model outside this core). -/
def classify (config : ClassificationConfig) (query : String) : String × ℚ :=
  rule_based_classification config query

/-! ## Selector and Router (`core/router.py`) -/

/-- A model entry of the `models` section of the configuration. -/
structure ModelConfig where
  provider : String
  model_name : String
  cost : ℚ
deriving DecidableEq

/-- The `routing` section: per-label confidence thresholds and the optional
`fallback_model` key (read with default `ollama-simple`). -/
structure RoutingConfig where
  confidence_thresholds : List (String × ℚ)
  fallback_model : Option String
deriving DecidableEq

/-- The configuration surface `route_query` and `_select_model` read. -/
structure Config where
  models : List (String × ModelConfig)
  classification : ClassificationConfig
  routing : RoutingConfig

/-- The hard-coded `model_mapping` dict inside `_select_model`. -/
def model_mapping : List (String × String) :=
  [("simple", "ollama-simple"), ("medium", "ollama-medium"), ("advanced", "gpt2-large")]

/-- `Router._select_model`. The source wraps the decision in try/except
returning the fallback; in this total embedding the dictionary lookups are
`Option`-valued and cannot fail, so the except path has no counterpart. -/
def select_model (config : Config) (classification : String) (confidence : ℚ) : String :=
  let routing := config.routing
  let fallback_model := routing.fallback_model.getD "ollama-simple"
  match List.lookup classification routing.confidence_thresholds with
  | some threshold =>
      if confidence ≥ threshold then (List.lookup classification model_mapping).getD fallback_model
      else fallback_model
  | none => fallback_model

/-- The `self.metrics` dict. -/
structure Metrics where
  total_queries : ℕ
  cache_hits : ℕ
  model_usage : List (String × ℕ)
  total_cost : ℚ
  total_time : ℚ
deriving DecidableEq

/-- `Router._update_metrics`. -/
def update_metrics (m : Metrics) (model : String) (speed cost : ℚ) : Metrics :=
  { m with
    model_usage := assocSet model ((List.lookup model m.model_usage).getD 0 + 1) m.model_usage,
    total_cost := m.total_cost + cost,
    total_time := m.total_time + speed }

/-- Errors `route_query` can raise: `ValueError` for an unknown forced model,
`KeyError` when the selected model id is missing from `config[models]`, and a
propagated backend generation error. -/
inductive RouteError where
  | valueError (model : String)
  | keyError (key : String)
  | genError (msg : String)
deriving DecidableEq

/-- The backend contract `ModelManager.generate_response`: an external oracle
producing `(response, speed_ms, accuracy)` or failing. -/
abbrev Backend : Type := ModelConfig → String → Except String (String × ℚ × ℚ)

/-- The mutable state a `Router` owns: its metrics dict and its `QueryCache`. -/
structure RouterState where
  metrics : Metrics
  cache : QueryCache
deriving DecidableEq

/-- The forced branch of `route_query` (taken after `total_queries` was
already incremented into `st`). -/
def route_query_forced (config : Config) (backend : Backend) (st : RouterState)
    (query : String) (fm : String) : Except RouteError RoutingResult × RouterState :=
  match List.lookup fm config.models with
  | none => (.error (.valueError fm), st)
  | some mc =>
    match backend mc query with
    | .error e => (.error (.genError e), st)
    | .ok (response, speed, accuracy) =>
      let cost := mc.cost
      (.ok { query := query, model_used := fm, response := response, speed_ms := speed,
             accuracy := accuracy, cost := cost, from_cache := false,
             classification := "forced", confidence := 1 },
       { st with metrics := update_metrics st.metrics fm speed cost })

/-- The non-forced branch of `route_query` (cache lookup, classify, select,
generate, record, cache store), after the `total_queries` increment. -/
def route_query_normal (config : Config) (backend : Backend) (now : ℕ) (st : RouterState)
    (query : String) : Except RouteError RoutingResult × RouterState :=
  match cache_get st.cache now query with
  | some cached_result =>
    (.ok (entryToResult cached_result true),
     { st with metrics := { st.metrics with cache_hits := st.metrics.cache_hits + 1 } })
  | none =>
    let cc := classify config.classification query
    let chosen_model := select_model config cc.1 cc.2
    match List.lookup chosen_model config.models with
    | none => (.error (.keyError chosen_model), st)
    | some mc =>
      match backend mc query with
      | .error e => (.error (.genError e), st)
      | .ok (response, speed, accuracy) =>
        let cost := mc.cost
        let result_data : CacheEntry :=
          { query := query, model_used := chosen_model, response := response,
            speed_ms := speed, accuracy := accuracy, cost := cost,
            classification := cc.1, confidence := cc.2 }
        (.ok (entryToResult result_data false),
         { metrics := update_metrics st.metrics chosen_model speed cost,
           cache := cache_set st.cache query result_data })

/-- `Router.route_query`. `total_queries` is incremented first; the forced
branch is guarded by Python truthiness (`if force_model:`), so an empty
string behaves like no forced model. -/
def route_query (config : Config) (backend : Backend) (now : ℕ) (st : RouterState)
    (query : String) (force_model : Option String) :
    Except RouteError RoutingResult × RouterState :=
  let st1 := { st with metrics := { st.metrics with total_queries := st.metrics.total_queries + 1 } }
  match force_model with
  | some fm =>
    if fm.isEmpty then route_query_normal config backend now st1 query
    else route_query_forced config backend st1 query fm
  | none => route_query_normal config backend now st1 query

/-! ## Helper lemmas -/

theorem lookup_assocSet_self {α : Type} (k : String) (v : α) (l : List (String × α)) :
    List.lookup k (assocSet k v l) = some v := by
  induction l with
  | nil => simp [assocSet, List.lookup]
  | cons hd t ih =>
    obtain ⟨k2, v2⟩ := hd
    by_cases hk : k2 = k
    · simp [assocSet, hk, List.lookup]
    · have hk2 : (k == k2) = false := by simp [Ne.symm hk]
      simp [assocSet, hk, List.lookup, hk2, ih]

theorem clean_result_eq (e : CacheEntry) : clean_result e = e := rfl

/-! ## Claim theorems -/

/-- C1: the spec requires an entry inserted at time T with a configured
`ttlSeconds` to be absent from `get` at every time at or after T + ttl. The
code stores entries through the plain item-assignment operator, which attaches
no expiry, and never uses `ttl_seconds`; so a stored entry is returned by
`get` at every later time, for every ttl. Evaluating at the failing input
(ttl 3600, insertion at time 0, read at time 3600) exhibits the bug. -/
theorem ttl_never_enforced (qc : QueryCache) (q : String) (e : CacheEntry) (now : ℕ) :
    cache_get (cache_set qc q e) now q = some e := by
  unfold cache_get cache_set diskcache_setitem diskcache_get
  simp only [lookup_assocSet_self, clean_result_eq]

/-- C8: the spec requires `get_stats` never to raise, degrading to
`hit_rate = 0` on internal storage failures. The except-branch of the source
re-reads `volume()` and `len` from the same failing store unprotected, so a
storage failure that also affects those calls propagates out of `get_stats`.
The second conjunct checks the intended degraded path (`hit_rate = 0` with
zero accesses) does hold when the re-reads succeed. -/
theorem get_stats_raises_on_storage_failure :
    get_stats ⟨Except.error (), Except.error (), Except.error ()⟩ = Except.error () ∧
    get_stats ⟨Except.ok (0, 0), Except.ok 5, Except.ok 2⟩ = Except.ok ⟨5, 2, 0⟩ ∧
    get_stats ⟨Except.error (), Except.ok 5, Except.ok 2⟩ = Except.ok ⟨5, 2, 0⟩ := by
  exact ⟨rfl, rfl, rfl⟩

/-- Case-insensitive substring presence, as the claim words it: the keyword
occurs in the query when both are case-folded. -/
def ci_present (kw q : String) : Bool :=
  kw_in (pyLower kw) (pyLower q)

/-- The rule-based decision as the claim words it, with the matching
corrected to what the code computes: a keyword matches when it occurs,
verbatim, as a substring of the lowercased query (so matching is insensitive
to the casing of the query but not of the configured keyword). -/
def spec_rule_decision (config : ClassificationConfig) (query : String) : String × ℚ :=
  let hasSimple := config.simple_keywords.any (fun kw => kw_in kw (pyLower query))
  let hasAdvanced := config.advanced_keywords.any (fun kw => kw_in kw (pyLower query))
  let isShort := decide (query.length < config.threshold_simple.getD 80)
  let isLong := decide (query.length > config.threshold_advanced.getD 200)
  if hasAdvanced then ("advanced", 0.85)
  else if isLong then ("advanced", 0.70)
  else if hasSimple && isShort then ("simple", 0.90)
  else ("medium", 0.80)

/-- C2, counterexample: the claim promises case-insensitive keyword matching
and that a query containing a configured advanced keyword is never labeled
simple. With the advanced keyword configured as the uppercase string X, the
query containing X case-insensitively (indeed verbatim) is still labeled
simple with confidence 0.90, because the code lowercases only the query and
the uppercase keyword can then never match. -/
theorem advanced_keyword_case_mismatch :
    ci_present "X" "what X" = true ∧
    rule_based_classification ⟨["what"], ["X"], none, none⟩ "what X" = ("simple", 0.90) :=
  ⟨rfl, rfl⟩

/-- C2, amended: with matching as the code computes it (the configured
keyword occurs verbatim in the lowercased query), the classifier follows
exactly the claimed precedence order — advanced at 0.85 on a keyword match,
advanced at 0.70 on length alone, simple at 0.90 on a simple-keyword match
with short length, else medium at 0.80 — and a query matching a configured
advanced keyword is never labeled simple. -/
theorem rule_based_matches_spec_decision (config : ClassificationConfig) (query : String) :
    rule_based_classification config query = spec_rule_decision config query ∧
    (config.advanced_keywords.any (fun kw => kw_in kw (pyLower query)) = true →
      (rule_based_classification config query).1 = "advanced") := by
  constructor
  · unfold rule_based_classification spec_rule_decision
    by_cases hA : config.advanced_keywords.any (fun kw => kw_in kw (pyLower query)) = true
    · simp [hA]
    · simp only [Bool.not_eq_true] at hA
      by_cases hL : query.length > config.threshold_advanced.getD 200
      · simp [hA, hL]
      · by_cases hS : config.simple_keywords.any (fun kw => kw_in kw (pyLower query)) = true
        · simp [hA, hL, hS]
        · simp only [Bool.not_eq_true] at hS
          simp [hA, hL, hS]
  · intro hA
    unfold rule_based_classification
    simp [hA]

/-- C2 witness: a query matching the configured advanced keyword is labeled
advanced, at a concrete configuration and query. -/
theorem rule_based_matches_spec_decision_witness :
    (rule_based_classification ⟨["what is"], ["analyze"], none, none⟩ "Analyze this").1
      = "advanced" :=
  (rule_based_matches_spec_decision ⟨["what is"], ["analyze"], none, none⟩ "Analyze this").2
    (by decide)

/-- C3, counterexample: the claim states `select` returns the mapped model id
if and ONLY if the threshold is met, and (per the spec) never the default
mapping when below threshold. With the fallback configured as ollama-simple —
which is also `_select_model`'s default — a below-threshold simple query still
yields ollama-simple, which IS the mapped id of the simple label, so the
only-if direction fails. -/
theorem below_threshold_can_return_mapped_id :
    select_model ⟨[], ⟨[], [], none, none⟩, ⟨[("simple", 0.7)], some "ollama-simple"⟩⟩
        "simple" 0.5 = "ollama-simple" ∧
    List.lookup "simple" model_mapping = some "ollama-simple" ∧
    ¬((0.5 : ℚ) ≥ (0.7 : ℚ)) := by
  have hlt : ¬((0.5 : ℚ) ≥ (0.7 : ℚ)) := by norm_num
  refine ⟨?_, rfl, hlt⟩
  simp [select_model, List.lookup, hlt]

/-- C3, amended: if the label has a configured threshold and the confidence
meets it, `select` returns the label's mapped id (the fallback when the label
is outside the fixed mapping); in every other case — below threshold or no
configured threshold, with lookups total so no error can propagate — it
returns the configured fallback id. The claimed if-and-only-if holds whenever
the label's mapped id differs from the fallback id (the counterexample shows
it fails when they coincide). -/
theorem select_model_threshold_gate (config : Config) (label : String) (confidence : ℚ) :
    (∀ th, List.lookup label config.routing.confidence_thresholds = some th →
      confidence ≥ th →
      select_model config label confidence
        = (List.lookup label model_mapping).getD
            (config.routing.fallback_model.getD "ollama-simple")) ∧
    ((∀ th, List.lookup label config.routing.confidence_thresholds = some th →
        ¬ confidence ≥ th) →
      select_model config label confidence
        = config.routing.fallback_model.getD "ollama-simple") ∧
    (∀ mid, List.lookup label model_mapping = some mid →
      mid ≠ config.routing.fallback_model.getD "ollama-simple" →
      (select_model config label confidence = mid ↔
        ∃ th, List.lookup label config.routing.confidence_thresholds = some th ∧
          confidence ≥ th)) := by
  refine ⟨?_, ?_, ?_⟩
  · intro th hth hc
    simp [select_model, hth, hc]
  · intro hbelow
    cases hth : List.lookup label config.routing.confidence_thresholds with
    | none => simp [select_model, hth]
    | some th => simp [select_model, hth, hbelow th hth]
  · intro mid hmid hne
    cases hth : List.lookup label config.routing.confidence_thresholds with
    | none =>
      have hsel : select_model config label confidence
          = config.routing.fallback_model.getD "ollama-simple" := by
        simp [select_model, hth]
      rw [hsel]
      constructor
      · intro h
        exact absurd h.symm hne
      · rintro ⟨th, hth2, -⟩
        exact Option.noConfusion hth2
    | some th =>
      by_cases hc : confidence ≥ th
      · have hsel : select_model config label confidence = mid := by
          simp [select_model, hth, hc, hmid]
        rw [hsel]
        constructor
        · intro _
          exact ⟨th, rfl, hc⟩
        · intro _
          rfl
      · have hsel : select_model config label confidence
            = config.routing.fallback_model.getD "ollama-simple" := by
          simp [select_model, hth, hc]
        rw [hsel]
        constructor
        · intro h
          exact absurd h.symm hne
        · rintro ⟨th2, hth2, hc2⟩
          cases hth2
          exact absurd hc2 hc

/-- C3 witness: at a concrete configuration (advanced threshold 1, fallback
ollama-simple) the label advanced with confidence 1 selects gpt2-large,
exactly when its threshold is met. -/
theorem select_model_threshold_gate_witness :
    select_model ⟨[], ⟨[], [], none, none⟩, ⟨[("advanced", 1)], some "ollama-simple"⟩⟩
      "advanced" 1 = "gpt2-large" :=
  ((select_model_threshold_gate
      ⟨[], ⟨[], [], none, none⟩, ⟨[("advanced", 1)], some "ollama-simple"⟩⟩
      "advanced" 1).2.2 "gpt2-large" rfl (by decide)).mpr
    ⟨1, rfl, le_refl 1⟩

/-- C5: the cache key is a deterministic hash of exactly the lowercased query
text — queries equal after case-folding share the key, so an entry stored
under one casing is returned by `get` under any other casing; and whitespace
is part of the hashed content (a trailing blank changes the key), witnessed
concretely. The converse direction of the claim is hedged by the claim itself
(`up to hash collisions`), which is what an MD5 key provides. -/
theorem cache_key_depends_only_on_lowercase :
    (∀ q1 q2 : String, pyLower q1 = pyLower q2 → get_query_hash q1 = get_query_hash q2) ∧
    (∀ (qc : QueryCache) (q1 q2 : String) (e : CacheEntry) (now : ℕ),
      pyLower q1 = pyLower q2 →
      cache_get (cache_set qc q1 e) now q2 = some e) ∧
    get_query_hash "ab " ≠ get_query_hash "ab" := by
  have hkey : ∀ q1 q2 : String, pyLower q1 = pyLower q2 →
      get_query_hash q1 = get_query_hash q2 := by
    intro q1 q2 h
    unfold get_query_hash
    rw [h]
  refine ⟨hkey, ?_, by decide⟩
  intro qc q1 q2 e now h
  unfold cache_get cache_set diskcache_setitem diskcache_get
  rw [← hkey q1 q2 h]
  simp only [lookup_assocSet_self, clean_result_eq]

/-- C5 witness: an entry stored under the casing Hello is returned by `get`
for the casing hELLO. -/
theorem cache_key_depends_only_on_lowercase_witness :
    cache_get
      (cache_set ⟨3600, []⟩ "Hello"
        ⟨"Hello", "m", "r", 1, 1, 1, "medium", 1⟩)
      0 "hELLO"
      = some ⟨"Hello", "m", "r", 1, 1, 1, "medium", 1⟩ :=
  cache_key_depends_only_on_lowercase.2.1 ⟨3600, []⟩ "Hello" "hELLO"
    ⟨"Hello", "m", "r", 1, 1, 1, "medium", 1⟩ 0 (by decide)

theorem route_query_forced_cache (config : Config) (backend : Backend) (st : RouterState)
    (q fm : String) : (route_query_forced config backend st q fm).2.cache = st.cache := by
  rcases hmc : List.lookup fm config.models with _ | mc
  · simp only [route_query_forced, hmc]
  · rcases hb : backend mc q with e | ⟨r, s, a⟩
    · simp only [route_query_forced, hmc, hb]
    · simp only [route_query_forced, hmc, hb]

theorem route_query_forced_error_state (config : Config) (backend : Backend) (st : RouterState)
    (q fm : String) (err : RouteError)
    (h : (route_query_forced config backend st q fm).1 = .error err) :
    (route_query_forced config backend st q fm).2 = st := by
  rcases hmc : List.lookup fm config.models with _ | mc
  · simp only [route_query_forced, hmc]
  · rcases hb : backend mc q with e | ⟨r, s, a⟩
    · simp only [route_query_forced, hmc, hb]
    · simp only [route_query_forced, hmc, hb] at h
      exact Except.noConfusion h

theorem route_query_normal_error_state (config : Config) (backend : Backend) (now : ℕ)
    (st : RouterState) (q : String) (err : RouteError)
    (h : (route_query_normal config backend now st q).1 = .error err) :
    (route_query_normal config backend now st q).2 = st := by
  rcases hc : cache_get st.cache now q with _ | e
  · rcases hmc : List.lookup
        (select_model config (classify config.classification q).1
          (classify config.classification q).2) config.models with _ | mc
    · simp only [route_query_normal, hc, hmc]
    · rcases hb : backend mc q with e | ⟨r, s, a⟩
      · simp only [route_query_normal, hc, hmc, hb]
      · simp only [route_query_normal, hc, hmc, hb] at h
        exact Except.noConfusion h
  · simp only [route_query_normal, hc] at h
    exact Except.noConfusion h

theorem route_query_error_state (config : Config) (backend : Backend) (now : ℕ)
    (st : RouterState) (q : String) (fm : Option String) (err : RouteError)
    (h : (route_query config backend now st q fm).1 = .error err) :
    (route_query config backend now st q fm).2
      = { st with metrics := { st.metrics with
            total_queries := st.metrics.total_queries + 1 } } := by
  cases fm with
  | none =>
    simp only [route_query] at h ⊢
    exact route_query_normal_error_state _ _ _ _ _ _ h
  | some s =>
    by_cases hs : s.isEmpty = true
    · simp only [route_query, hs, if_true] at h ⊢
      exact route_query_normal_error_state _ _ _ _ _ _ h
    · rw [Bool.not_eq_true] at hs
      simp only [route_query, hs, Bool.false_eq_true, if_false] at h ⊢
      exact route_query_forced_error_state _ _ _ _ _ _ h

/-- C4, counterexample: the claim covers every forceModel id present in the
configuration, but the source guards the forced branch with Python truthiness
(`if force_model:`), so the empty string — even when present as a model id in
the configuration — is treated as no forced model: the call reads the cache
and can return a cached result with fromCache true and a non-forced
classification. -/
theorem forced_empty_model_id_uses_cache :
    List.lookup ""
      ([("", ⟨"ollama", "phi", 1⟩)] : List (String × ModelConfig))
      = some ⟨"ollama", "phi", 1⟩ ∧
    (route_query
        ⟨[("", ⟨"ollama", "phi", 1⟩)], ⟨[], [], none, none⟩, ⟨[], none⟩⟩
        (fun _ _ => Except.error "unused") 0
        ⟨⟨0, 0, [], 0, 0⟩,
         ⟨3600, [(get_query_hash "hi", (⟨"hi", "ollama-medium", "resp", 1, 1, 1, "medium", 1⟩, none))]⟩⟩
        "hi" (some "")).1
      = .ok (entryToResult ⟨"hi", "ollama-medium", "resp", 1, 1, 1, "medium", 1⟩ true) ∧
    (entryToResult ⟨"hi", "ollama-medium", "resp", 1, 1, 1, "medium", 1⟩ true).from_cache = true ∧
    (entryToResult ⟨"hi", "ollama-medium", "resp", 1, 1, 1, "medium", 1⟩ true).classification
      = "medium" :=
  ⟨rfl, rfl, rfl, rfl⟩

/-- C4, amended: for every query routed with forceModel set to a NON-EMPTY
model id present in the configuration, the call leaves the cache state
unchanged, its result and resulting metrics are independent of the prior
cache contents (no cache read), and any returned RoutingResult has
classification forced, confidence 1.0 and fromCache false. (The empty-string
id is excluded: Python truthiness routes it down the normal path.) -/
theorem route_forced_bypasses_cache (config : Config) (backend : Backend) (now : ℕ)
    (st : RouterState) (q fm : String) (mc : ModelConfig)
    (hfm : fm.isEmpty = false) (hmc : List.lookup fm config.models = some mc) :
    (route_query config backend now st q (some fm)).2.cache = st.cache ∧
    (∀ st2 : RouterState, st2.metrics = st.metrics →
      (route_query config backend now st2 q (some fm)).1
          = (route_query config backend now st q (some fm)).1 ∧
      (route_query config backend now st2 q (some fm)).2.metrics
          = (route_query config backend now st q (some fm)).2.metrics) ∧
    (∀ r : RoutingResult, (route_query config backend now st q (some fm)).1 = .ok r →
      r.classification = "forced" ∧ r.confidence = 1 ∧ r.from_cache = false) := by
  refine ⟨?_, ?_, ?_⟩
  · simp only [route_query, hfm, Bool.false_eq_true, if_false]
    exact route_query_forced_cache _ _ _ _ _
  · intro st2 hm
    simp only [route_query, hfm, Bool.false_eq_true, if_false, route_query_forced, hmc]
    rcases hb : backend mc q with e | ⟨r, s, a⟩
    · simp only [hb]
      refine ⟨trivial, ?_⟩
      rw [hm]
    · simp only [hb]
      refine ⟨trivial, ?_⟩
      rw [hm]
  · intro r hr
    simp only [route_query, hfm, Bool.false_eq_true, if_false, route_query_forced, hmc] at hr
    rcases hb : backend mc q with e | ⟨resp, s, a⟩
    · simp only [hb] at hr
      exact Except.noConfusion hr
    · simp only [hb] at hr
      cases hr
      exact ⟨rfl, rfl, rfl⟩

/-- C4 witness: a concrete forced call with a configured non-empty id leaves
a non-empty cache untouched. -/
theorem route_forced_bypasses_cache_witness :
    (route_query
        ⟨[("m1", ⟨"ollama", "phi", 1⟩)], ⟨[], [], none, none⟩, ⟨[], none⟩⟩
        (fun _ _ => Except.ok ("resp", 2, 1)) 0
        ⟨⟨7, 3, [("m1", 2)], 5, 9⟩,
         ⟨3600, [(get_query_hash "old", (⟨"old", "m1", "r", 1, 1, 1, "medium", 1⟩, none))]⟩⟩
        "q" (some "m1")).2.cache
      = (⟨3600, [(get_query_hash "old", (⟨"old", "m1", "r", 1, 1, 1, "medium", 1⟩, none))]⟩ : QueryCache) :=
  (route_forced_bypasses_cache
    ⟨[("m1", ⟨"ollama", "phi", 1⟩)], ⟨[], [], none, none⟩, ⟨[], none⟩⟩
    (fun _ _ => Except.ok ("resp", 2, 1)) 0
    ⟨⟨7, 3, [("m1", 2)], 5, 9⟩,
     ⟨3600, [(get_query_hash "old", (⟨"old", "m1", "r", 1, 1, 1, "medium", 1⟩, none))]⟩⟩
    "q" "m1" ⟨"ollama", "phi", 1⟩ rfl (by decide)).1

/-- C6: a non-forced call that hits the cache returns exactly the stored
entry with fromCache true, increments exactly totalQueries and cacheHits
(modelUsage, totalCost and totalTime are carried over unchanged, as is the
cache itself), and the whole outcome is independent of the configuration and
the backend — so no classifier, selector or backend invocation can influence
it. -/
theorem route_cache_hit_frame (config : Config) (backend : Backend) (now : ℕ)
    (st : RouterState) (q : String) (e : CacheEntry)
    (hhit : cache_get st.cache now q = some e) :
    route_query config backend now st q none
      = (.ok (entryToResult e true),
         { st with metrics := { st.metrics with
             total_queries := st.metrics.total_queries + 1,
             cache_hits := st.metrics.cache_hits + 1 } }) ∧
    (∀ (config2 : Config) (backend2 : Backend),
      route_query config2 backend2 now st q none = route_query config backend now st q none) := by
  have hone : ∀ (c : Config) (b : Backend),
      route_query c b now st q none
        = (.ok (entryToResult e true),
           { st with metrics := { st.metrics with
               total_queries := st.metrics.total_queries + 1,
               cache_hits := st.metrics.cache_hits + 1 } }) := by
    intro c b
    simp only [route_query, route_query_normal, hhit]
  exact ⟨hone config backend, fun c2 b2 => (hone c2 b2).trans (hone config backend).symm⟩

/-- C6 witness: a concrete cache hit returns the stored entry with fromCache
true and bumps only the two counters. -/
theorem route_cache_hit_frame_witness :
    route_query
        ⟨[("m1", ⟨"ollama", "phi", 1⟩)], ⟨[], [], none, none⟩, ⟨[], none⟩⟩
        (fun _ _ => Except.error "down") 0
        ⟨⟨7, 3, [("m1", 2)], 5, 9⟩,
         ⟨3600, [(get_query_hash "hi", (⟨"hi", "m1", "r", 1, 1, 1, "medium", 1⟩, none))]⟩⟩
        "hi" none
      = (.ok (entryToResult ⟨"hi", "m1", "r", 1, 1, 1, "medium", 1⟩ true),
         ⟨⟨8, 4, [("m1", 2)], 5, 9⟩,
          ⟨3600, [(get_query_hash "hi", (⟨"hi", "m1", "r", 1, 1, 1, "medium", 1⟩, none))]⟩⟩) :=
  (route_cache_hit_frame
    ⟨[("m1", ⟨"ollama", "phi", 1⟩)], ⟨[], [], none, none⟩, ⟨[], none⟩⟩
    (fun _ _ => Except.error "down") 0
    ⟨⟨7, 3, [("m1", 2)], 5, 9⟩,
     ⟨3600, [(get_query_hash "hi", (⟨"hi", "m1", "r", 1, 1, 1, "medium", 1⟩, none))]⟩⟩
    "hi" ⟨"hi", "m1", "r", 1, 1, 1, "medium", 1⟩ (by decide)).1

/-- C7: a route call whose backend invocation fails leaves the cache exactly
as it was (first conjunct: any erroring call leaves the cache untouched), and
the backend error propagates to the caller unchanged, wrapped as a generation
error rather than being retried or replaced by a fabricated result — on the
forced path (second conjunct) and on the cache-miss path (third conjunct). -/
theorem backend_failure_propagates :
    (∀ (config : Config) (backend : Backend) (now : ℕ) (st : RouterState) (q : String)
        (fm : Option String) (err : RouteError),
      (route_query config backend now st q fm).1 = .error err →
      (route_query config backend now st q fm).2.cache = st.cache) ∧
    (∀ (config : Config) (backend : Backend) (now : ℕ) (st : RouterState) (q fm : String)
        (mc : ModelConfig) (e : String),
      fm.isEmpty = false →
      List.lookup fm config.models = some mc →
      backend mc q = .error e →
      (route_query config backend now st q (some fm)).1 = .error (.genError e)) ∧
    (∀ (config : Config) (backend : Backend) (now : ℕ) (st : RouterState) (q : String)
        (mc : ModelConfig) (e : String),
      cache_get st.cache now q = none →
      List.lookup
        (select_model config (classify config.classification q).1
          (classify config.classification q).2) config.models = some mc →
      backend mc q = .error e →
      (route_query config backend now st q none).1 = .error (.genError e)) := by
  refine ⟨?_, ?_, ?_⟩
  · intro config backend now st q fm err h
    rw [route_query_error_state config backend now st q fm err h]
  · intro config backend now st q fm mc e hfm hmc hb
    simp only [route_query, hfm, Bool.false_eq_true, if_false, route_query_forced, hmc, hb]
  · intro config backend now st q mc e hmiss hmc hb
    simp only [route_query, route_query_normal, hmiss, hmc, hb]

/-- C7 witness: with a concrete configuration, an empty cache and a backend
that fails with the message boom, the miss-path call surfaces exactly that
generation error. -/
theorem backend_failure_propagates_witness :
    (route_query
        ⟨[("ollama-simple", ⟨"ollama", "phi", 1⟩)], ⟨[], [], none, none⟩, ⟨[], none⟩⟩
        (fun _ _ => Except.error "boom") 0
        ⟨⟨0, 0, [], 0, 0⟩, ⟨3600, []⟩⟩ "hello" none).1
      = .error (.genError "boom") :=
  backend_failure_propagates.2.2
    ⟨[("ollama-simple", ⟨"ollama", "phi", 1⟩)], ⟨[], [], none, none⟩, ⟨[], none⟩⟩
    (fun _ _ => Except.error "boom") 0
    ⟨⟨0, 0, [], 0, 0⟩, ⟨3600, []⟩⟩ "hello"
    ⟨"ollama", "phi", 1⟩ "boom" (by decide) (by decide) rfl

/-- C9: the selected model id depends only on the routing section of the
configuration (first conjunct: equal routing sections give equal selections,
whatever the models section holds), is always one of the three hard-coded
mapped ids or the configured fallback (second conjunct), and need not exist
in the model registry: at a concrete configuration whose registry lacks the
selected id, the subsequent lookup fails and the route call raises a key
error (third conjunct). -/
theorem select_model_reads_only_routing :
    (∀ (config1 config2 : Config) (label : String) (conf : ℚ),
      config1.routing = config2.routing →
      select_model config1 label conf = select_model config2 label conf) ∧
    (∀ (config : Config) (label : String) (conf : ℚ),
      select_model config label conf = "ollama-simple" ∨
      select_model config label conf = "ollama-medium" ∨
      select_model config label conf = "gpt2-large" ∨
      select_model config label conf = config.routing.fallback_model.getD "ollama-simple") ∧
    (List.lookup
        (select_model
          ⟨[("ollama-simple", ⟨"ollama", "phi", 1⟩)], ⟨[], [], none, none⟩,
           ⟨[], some "gpt2-large"⟩⟩ "medium" 0.80)
        ([("ollama-simple", ⟨"ollama", "phi", 1⟩)] : List (String × ModelConfig)) = none ∧
      (route_query
          ⟨[("ollama-simple", ⟨"ollama", "phi", 1⟩)], ⟨[], [], none, none⟩,
           ⟨[], some "gpt2-large"⟩⟩
          (fun _ _ => Except.error "unused") 0
          ⟨⟨0, 0, [], 0, 0⟩, ⟨3600, []⟩⟩ "hello" none).1
        = .error (.keyError "gpt2-large")) := by
  refine ⟨?_, ?_, ?_, ?_⟩
  · intro config1 config2 label conf h
    unfold select_model
    rw [h]
  · intro config label conf
    cases hth : List.lookup label config.routing.confidence_thresholds with
    | none =>
      refine Or.inr (Or.inr (Or.inr ?_))
      simp [select_model, hth]
    | some th =>
      by_cases hc : conf ≥ th
      · cases hmm : List.lookup label model_mapping with
        | none =>
          refine Or.inr (Or.inr (Or.inr ?_))
          simp [select_model, hth, hc, hmm]
        | some mid =>
          have hmem : mid = "ollama-simple" ∨ mid = "ollama-medium" ∨ mid = "gpt2-large" := by
            by_cases h1 : label = "simple"
            · subst h1
              simp [model_mapping, List.lookup] at hmm
              exact Or.inl hmm.symm
            by_cases h2 : label = "medium"
            · subst h2
              simp [model_mapping, List.lookup] at hmm
              exact Or.inr (Or.inl hmm.symm)
            by_cases h3 : label = "advanced"
            · subst h3
              simp [model_mapping, List.lookup] at hmm
              exact Or.inr (Or.inr hmm.symm)
            · have e1 : (label == "simple") = false := by simp [h1]
              have e2 : (label == "medium") = false := by simp [h2]
              have e3 : (label == "advanced") = false := by simp [h3]
              simp [model_mapping, List.lookup, e1, e2, e3] at hmm
          have hsel : select_model config label conf = mid := by
            simp [select_model, hth, hc, hmm]
          rcases hmem with h | h | h
          · exact Or.inl (hsel.trans h)
          · exact Or.inr (Or.inl (hsel.trans h))
          · exact Or.inr (Or.inr (Or.inl (hsel.trans h)))
      · refine Or.inr (Or.inr (Or.inr ?_))
        simp [select_model, hth, hc]
  · rfl
  · rfl

/-- C9 witness: two configurations sharing the routing section but with
different model registries select the same id. -/
theorem select_model_reads_only_routing_witness :
    select_model ⟨[("a", ⟨"p", "n", 1⟩)], ⟨[], [], none, none⟩, ⟨[], none⟩⟩ "medium" 1
      = select_model ⟨[("b", ⟨"r", "m", 2⟩), ("c", ⟨"r", "m", 3⟩)],
          ⟨[], [], none, none⟩, ⟨[], none⟩⟩ "medium" 1 :=
  select_model_reads_only_routing.1
    ⟨[("a", ⟨"p", "n", 1⟩)], ⟨[], [], none, none⟩, ⟨[], none⟩⟩
    ⟨[("b", ⟨"r", "m", 2⟩), ("c", ⟨"r", "m", 3⟩)], ⟨[], [], none, none⟩, ⟨[], none⟩⟩
    "medium" 1 rfl

/-- C10: `total_queries` is incremented before validation and before the
backend call, so every route call that raises — an unknown forced model, a
missing selected model, or a backend generation failure — leaves the metrics
with exactly `total_queries` one higher, while `cache_hits`, `model_usage`,
`total_cost`, `total_time` and the cache contents are unchanged. -/
theorem route_error_increments_only_total_queries (config : Config) (backend : Backend)
    (now : ℕ) (st : RouterState) (q : String) (fm : Option String) (err : RouteError)
    (h : (route_query config backend now st q fm).1 = .error err) :
    (route_query config backend now st q fm).2.metrics.total_queries
        = st.metrics.total_queries + 1 ∧
    (route_query config backend now st q fm).2.metrics.cache_hits = st.metrics.cache_hits ∧
    (route_query config backend now st q fm).2.metrics.model_usage = st.metrics.model_usage ∧
    (route_query config backend now st q fm).2.metrics.total_cost = st.metrics.total_cost ∧
    (route_query config backend now st q fm).2.metrics.total_time = st.metrics.total_time ∧
    (route_query config backend now st q fm).2.cache = st.cache := by
  rw [route_query_error_state config backend now st q fm err h]
  exact ⟨rfl, rfl, rfl, rfl, rfl, rfl⟩

/-- C10 witness: a forced call with an unknown model id raises and bumps only
`total_queries` on a concrete non-trivial metrics state. -/
theorem route_error_increments_only_total_queries_witness :
    (route_query
        ⟨[("m1", ⟨"ollama", "phi", 1⟩)], ⟨[], [], none, none⟩, ⟨[], none⟩⟩
        (fun _ _ => Except.ok ("r", 1, 1)) 0
        ⟨⟨7, 3, [("m1", 2)], 5, 9⟩, ⟨3600, []⟩⟩ "q" (some "nope")).2.metrics.total_queries
      = 7 + 1 ∧
    (route_query
        ⟨[("m1", ⟨"ollama", "phi", 1⟩)], ⟨[], [], none, none⟩, ⟨[], none⟩⟩
        (fun _ _ => Except.ok ("r", 1, 1)) 0
        ⟨⟨7, 3, [("m1", 2)], 5, 9⟩, ⟨3600, []⟩⟩ "q" (some "nope")).2.metrics.total_cost = 5 :=
  ⟨(route_error_increments_only_total_queries
      ⟨[("m1", ⟨"ollama", "phi", 1⟩)], ⟨[], [], none, none⟩, ⟨[], none⟩⟩
      (fun _ _ => Except.ok ("r", 1, 1)) 0
      ⟨⟨7, 3, [("m1", 2)], 5, 9⟩, ⟨3600, []⟩⟩ "q" (some "nope")
      (.valueError "nope") rfl).1,
   (route_error_increments_only_total_queries
      ⟨[("m1", ⟨"ollama", "phi", 1⟩)], ⟨[], [], none, none⟩, ⟨[], none⟩⟩
      (fun _ _ => Except.ok ("r", 1, 1)) 0
      ⟨⟨7, 3, [("m1", 2)], 5, 9⟩, ⟨3600, []⟩⟩ "q" (some "nope")
      (.valueError "nope") rfl).2.2.2.1⟩

end LLMRouting
